import Mathlib

/-!
Shallow embedding of `memgpt/client/client.py` (MemGPT client SDK).

The file models the data shapes and the operations of the client module:
the wire models the REST strategy parses responses into, the domain objects
(`AgentState`, `Source`, `Job`, `User`), the adapter conversions between them
(identifier and timestamp normalization), the REST operations as pure
functions of the HTTP response they receive, and the local strategy's
construction-time user upsert, queue-capturing `user_message`, and the
blocking job-poll loop of `load_file_into_source`.

Conventions of the embedding:
* An HTTP response is a triple `(status, text, parse)`; `parse : Option α`
  is the outcome of constructing the pydantic wire model `α` from
  `response.json()` (`none` models a `pydantic` validation failure).
* Python exceptions become `Except ClientError`; each `ClientError`
  constructor records which Python raise it embeds (see its comment).
* The network requests an operation issues are returned explicitly as a
  `List Request`, so that "no request was issued" is statable.
* The unbounded `while True` poll loop is embedded with explicit fuel; a
  result of `none` means the loop was still running after `fuel` polls.
-/

namespace MemGPTClient

/-! ## Identifiers (`uuid.UUID`) -/

/-- A 128-bit unique identifier, the canonical identifier representation
(`uuid.UUID`). -/
structure UUID where
  val : Nat
deriving DecidableEq, Repr

/-- `uuid.UUID(int=0)`, the all-zero (nil) UUID. -/
def UUID.nil : UUID := ⟨0⟩

/-- Value of one hexadecimal digit character, `none` when the character is
not a hex digit. -/
def hexDigitVal (c : Char) : Option Nat :=
  if '0' ≤ c ∧ c ≤ '9' then some (c.toNat - 48)
  else if 'a' ≤ c ∧ c ≤ 'f' then some (c.toNat - 97 + 10)
  else if 'A' ≤ c ∧ c ≤ 'F' then some (c.toNat - 65 + 10)
  else none

/-- `uuid.UUID(s)` on a hex string: hyphens are stripped, exactly 32 hex
digits must remain, otherwise Python raises
`ValueError("badly formed hexadecimal UUID string")` (modelled as `none`). -/
def uuidParse (s : String) : Option UUID :=
  let cs := s.data.filter (fun c => c ≠ '-')
  if cs.length = 32 then
    (cs.foldlM (fun acc c => (hexDigitVal c).map (fun d => acc * 16 + d)) 0).map UUID.mk
  else none

/-- Lower-case hex digit character for a value `< 16`. -/
def hexChar (n : Nat) : Char :=
  if n < 10 then Char.ofNat (48 + n) else Char.ofNat (97 + (n - 10))

/-- Fixed-width lower-case hex rendering, most significant digit first. -/
def natToHexPad (width n : Nat) : List Char :=
  ((List.range width).reverse).map (fun i => hexChar ((n / 16 ^ i) % 16))

/-- `str(u)` for a `uuid.UUID`: 32 lower-case hex digits in 8-4-4-4-12
groups. -/
def uuidToString (u : UUID) : String :=
  let ds := natToHexPad 32 u.val
  String.mk (ds.take 8 ++ ['-'] ++ ((ds.drop 8).take 4) ++ ['-'] ++
    ((ds.drop 12).take 4) ++ ['-'] ++ ((ds.drop 16).take 4) ++ ['-'] ++ ds.drop 20)

/-- `str(x)` for an `Optional[str]`: Python renders `None` as `"None"`. -/
def pyStr : Option String → String
  | none => "None"
  | some s => s

/-! ## Timestamps (`datetime.datetime`) -/

/-- The canonical timestamp type: a Python `datetime.datetime` value,
represented by its civil fields.  Both adapter paths
(`datetime.datetime.fromtimestamp` and `datetime.datetime.strptime`)
produce this type. -/
structure DateTime where
  year : Int
  month : Nat
  day : Nat
  hour : Nat
  minute : Nat
  second : Nat
  microsecond : Nat
deriving DecidableEq, Repr

/-- Gregorian leap-year test. -/
def isLeapYear (y : Int) : Bool :=
  (y % 4 == 0 && y % 100 != 0) || (y % 400 == 0)

/-- Number of days in a month of a given year. -/
def daysInMonth (y : Int) (m : Nat) : Nat :=
  if m = 2 then (if isLeapYear y then 29 else 28)
  else if m = 4 ∨ m = 6 ∨ m = 9 ∨ m = 11 then 30
  else 31

/-- Civil date from a count of days since the Unix epoch (1970-01-01),
the standard era-based conversion used by calendar libraries. -/
def civilFromDays (z0 : Int) : Int × Nat × Nat :=
  let z := z0 + 719468
  let era := Int.ediv z 146097
  let doe := (Int.emod z 146097).toNat
  let yoe := (doe - doe / 1460 + doe / 36524 - doe / 146096) / 365
  let doy := doe - (365 * yoe + yoe / 4 - yoe / 100)
  let mp := (5 * doy + 2) / 153
  let d := doy - (153 * mp + 2) / 5 + 1
  let m := if mp < 10 then mp + 3 else mp - 9
  let y : Int := (yoe : Int) + era * 400 + (if m ≤ 2 then 1 else 0)
  (y, m, d)

/-- `datetime.datetime.fromtimestamp(ts, tz=datetime.timezone.utc)` on an
integral Unix-epoch-seconds value: the canonical timestamp it denotes. -/
def fromtimestampUTC (ts : Int) : DateTime :=
  let days := Int.ediv ts 86400
  let sod := (Int.emod ts 86400).toNat
  let (y, m, d) := civilFromDays days
  { year := y, month := m, day := d,
    hour := sod / 3600, minute := (sod % 3600) / 60, second := sod % 60,
    microsecond := 0 }

/-- Value of a decimal digit character. -/
def digitVal (c : Char) : Option Nat :=
  if '0' ≤ c ∧ c ≤ '9' then some (c.toNat - 48) else none

/-- Exactly four decimal digits (the `%Y` directive of `strptime`). -/
def parse4Digits : List Char → Option (Nat × List Char)
  | c1 :: c2 :: c3 :: c4 :: rest => do
    let d1 ← digitVal c1
    let d2 ← digitVal c2
    let d3 ← digitVal c3
    let d4 ← digitVal c4
    pure (((d1 * 10 + d2) * 10 + d3) * 10 + d4, rest)
  | _ => none

/-- One- or two-digit numeric directive of `strptime` (`%m`, `%d`, `%H`,
`%M`, `%S`): a two-digit match is taken when `ok2` accepts its value,
otherwise a single digit accepted by `ok1` is taken.  This mirrors the
greedy regex alternations of Python's `_strptime` (for this format the next
expected character is always a non-digit separator, so no backtracking
case distinguishes the regex from this first-match rule). -/
def parse2or1 (ok2 ok1 : Nat → Bool) : List Char → Option (Nat × List Char)
  | c1 :: c2 :: rest =>
    match digitVal c1, digitVal c2 with
    | some d1, some d2 =>
      if ok2 (d1 * 10 + d2) then some (d1 * 10 + d2, rest)
      else if ok1 d1 then some (d1, c2 :: rest) else none
    | some d1, none => if ok1 d1 then some (d1, c2 :: rest) else none
    | none, _ => none
  | [c1] => (digitVal c1).bind (fun d => if ok1 d then some (d, []) else none)
  | [] => none

/-- The next literal character of the format must match. -/
def expectChar (c : Char) : List Char → Option (List Char)
  | c' :: rest => if c' = c then some rest else none
  | [] => none

/-- Up to `n` leading decimal digits of the input (greedy). -/
def takeDigitsUpTo : Nat → List Char → List Nat × List Char
  | 0, cs => ([], cs)
  | _ + 1, [] => ([], [])
  | n + 1, c :: rest =>
    match digitVal c with
    | some d =>
      let (ds, cs') := takeDigitsUpTo n rest
      (d :: ds, cs')
    | none => ([], c :: rest)

/-- The `%f` directive: one to six digits, right-padded with zeros to a
microsecond count. -/
def parseMicro (cs : List Char) : Option (Nat × List Char) :=
  let (ds, rest) := takeDigitsUpTo 6 cs
  if ds.length = 0 then none
  else
    let padded := ds ++ List.replicate (6 - ds.length) 0
    some (padded.foldl (fun a d => a * 10 + d) 0, rest)

/-- `datetime.datetime.strptime(s, "%Y-%m-%dT%H:%M:%S.%f")`: the fixed
date-format parse used for source timestamps.  `none` models the
`ValueError` Python raises on a regex mismatch, on unconverted trailing
input, or when `datetime` rejects the field values (month/day out of
calendar range, seconds above 59, year below 1). -/
def strptimeSourceFormat (s : String) : Option DateTime := do
  let cs := s.data
  let (y, cs) ← parse4Digits cs
  let cs ← expectChar '-' cs
  let (mo, cs) ← parse2or1 (fun n => decide (1 ≤ n ∧ n ≤ 12)) (fun d => decide (1 ≤ d)) cs
  let cs ← expectChar '-' cs
  let (d, cs) ← parse2or1 (fun n => decide (1 ≤ n ∧ n ≤ 31)) (fun d => decide (1 ≤ d)) cs
  let cs ← expectChar 'T' cs
  let (h, cs) ← parse2or1 (fun n => decide (n ≤ 23)) (fun _ => true) cs
  let cs ← expectChar ':' cs
  let (mi, cs) ← parse2or1 (fun n => decide (n ≤ 59)) (fun _ => true) cs
  let cs ← expectChar ':' cs
  let (sec, cs) ← parse2or1 (fun n => decide (n ≤ 61)) (fun _ => true) cs
  let cs ← expectChar '.' cs
  let (us, cs) ← parseMicro cs
  if cs ≠ [] then none
  else if 1 ≤ y ∧ 1 ≤ d ∧ d ≤ daysInMonth y mo ∧ sec ≤ 59 then
    some ⟨(y : Int), mo, d, h, mi, sec, us⟩
  else none

/-! ## Errors and the transport boundary -/

/-- The exceptions the client raises, by the signal names of the error
taxonomy.  Each constructor embeds a concrete Python raise:
* `invalidArguments`: `ValueError` for a contradictory parameter combination;
* `unsupportedOverride`: the `ValueError` of `RESTClient.create_agent` on an
  explicit `embedding_config`/`llm_config`;
* `remoteFailure`: `ValueError`/`AssertionError` on a non-OK status code,
  carrying the raw response text;
* `malformedUUID`: the `ValueError` of `uuid.UUID` on a bad id string;
* `malformedTimestamp`: the `ValueError` of `datetime.strptime` on an
  unparsable date string;
* `validationError`: a `pydantic` wire-model construction failure;
* `ingestionFailed`: the `ValueError("Job failed: {job.metadata}")` of the
  blocking poll loop, carrying the job metadata;
* `notImplemented`: `NotImplementedError` from an abstract-only operation. -/
inductive ClientError
  | invalidArguments (msg : String)
  | unsupportedOverride (msg : String)
  | remoteFailure (text : String)
  | malformedUUID (value : String)
  | malformedTimestamp (value : String)
  | validationError (text : String)
  | ingestionFailed (metadata : List (String × String))
  | notImplemented
deriving DecidableEq, Repr

/-- A network request issued by the REST strategy (method and URL; bodies
are not inspected by any property below). -/
inductive Request
  | get (url : String)
  | post (url : String)
  | patch (url : String)
  | delete (url : String)
deriving DecidableEq, Repr

/-- An HTTP response as the client observes it: status code, raw body text,
and the outcome of constructing the wire model `α` from `response.json()`
(`none` models a pydantic validation failure on the body). -/
structure HTTPResponse (α : Type) where
  status : Nat
  text : String
  parse : Option α
deriving DecidableEq, Repr

/-! ## Configuration and agent shapes -/

/-- Wire `LLMConfigModel` (nested object of an agent-state response). -/
structure WireLLMConfig where
  model : Option String
  model_endpoint_type : Option String
  model_endpoint : Option String
  model_wrapper : Option String
  context_window : Option Nat
deriving DecidableEq, Repr

/-- Wire `EmbeddingConfigModel`, also used for the embedding-config
dictionary of source responses (key access modelled as field access). -/
structure WireEmbeddingConfig where
  embedding_endpoint_type : Option String
  embedding_endpoint : Option String
  embedding_model : Option String
  embedding_dim : Option Nat
  embedding_chunk_size : Option Nat
deriving DecidableEq, Repr

/-- Domain `LLMConfig` (`memgpt.data_types`). -/
structure LLMConfig where
  model : Option String
  model_endpoint_type : Option String
  model_endpoint : Option String
  model_wrapper : Option String
  context_window : Option Nat
deriving DecidableEq, Repr

/-- Domain `EmbeddingConfig` (`memgpt.data_types`). -/
structure EmbeddingConfig where
  embedding_endpoint_type : Option String
  embedding_endpoint : Option String
  embedding_model : Option String
  embedding_dim : Option Nat
  embedding_chunk_size : Option Nat
deriving DecidableEq, Repr

/-- The `agent_state` member of a wire `GetAgentResponse` /
`CreateAgentResponse`: identifiers already UUID-typed, nested configs in
wire shape, and `created_at` as Unix epoch seconds (the integer the server
sends, compare `save_agent`, which writes
`int(agent_state.created_at.timestamp())`). -/
structure WireAgentState where
  id : UUID
  name : String
  user_id : UUID
  preset : String
  persona : String
  human : String
  llm_config : WireLLMConfig
  embedding_config : WireEmbeddingConfig
  state : Option (List (String × String))
  created_at : Int
deriving DecidableEq, Repr

/-- Domain `AgentState` (`memgpt.data_types`), with the canonical
timestamp type. -/
structure AgentState where
  id : UUID
  name : String
  user_id : UUID
  preset : String
  persona : String
  human : String
  llm_config : LLMConfig
  embedding_config : EmbeddingConfig
  state : Option (List (String × String))
  created_at : DateTime
deriving DecidableEq, Repr

/-- `RESTClient.get_agent_response_to_state`: the adapter from a wire
agent-state response to the domain `AgentState`.  Configs are copied
field-by-field and `created_at` is parsed from epoch seconds with
`datetime.datetime.fromtimestamp(_, tz=datetime.timezone.utc)`. -/
def get_agent_response_to_state (w : WireAgentState) : AgentState :=
  let llm_config : LLMConfig :=
    { model := w.llm_config.model
      model_endpoint_type := w.llm_config.model_endpoint_type
      model_endpoint := w.llm_config.model_endpoint
      model_wrapper := w.llm_config.model_wrapper
      context_window := w.llm_config.context_window }
  let embedding_config : EmbeddingConfig :=
    { embedding_endpoint_type := w.embedding_config.embedding_endpoint_type
      embedding_endpoint := w.embedding_config.embedding_endpoint
      embedding_model := w.embedding_config.embedding_model
      embedding_dim := w.embedding_config.embedding_dim
      embedding_chunk_size := w.embedding_config.embedding_chunk_size }
  { id := w.id
    name := w.name
    user_id := w.user_id
    preset := w.preset
    persona := w.persona
    human := w.human
    llm_config := llm_config
    embedding_config := embedding_config
    state := w.state
    created_at := fromtimestampUTC w.created_at }

/-! ## REST strategy: agents -/

/-- An entry of the agents list returned by the server (a dictionary with
at least `id` and `name`, both strings). -/
structure AgentInfo where
  id : String
  name : String
deriving DecidableEq, Repr

/-- Wire `ListAgentsResponse`. -/
structure ListAgentsResponse where
  num_agents : Nat
  agents : List AgentInfo
deriving DecidableEq, Repr

/-- `RESTClient.list_agents`: parses the body into a `ListAgentsResponse`
without ever inspecting the status code. -/
def restListAgents (resp : HTTPResponse ListAgentsResponse) :
    Except ClientError ListAgentsResponse :=
  match resp.parse with
  | none => .error (.validationError resp.text)
  | some m => .ok m

/-- `RESTClient.agent_exists`: issues a GET against
`/api/agents/{str(agent_id)}/config` (the `agent_name` parameter is never
read, and a missing `agent_id` is rendered as the string `"None"`);
404 answers `false`, 200 answers `true`, anything else raises. -/
def restAgentExists (base_url : String) (agent_id agent_name : Option String)
    (resp : HTTPResponse Unit) : List Request × Except ClientError Bool :=
  let reqs := [Request.get (base_url ++ "/api/agents/" ++ pyStr agent_id ++ "/config")]
  if resp.status = 404 then (reqs, .ok false)
  else if resp.status = 200 then (reqs, .ok true)
  else (reqs, .error (.remoteFailure resp.text))

/-- `RESTClient.create_agent`: rejects an explicit `embedding_config` or
`llm_config` before issuing any request; otherwise posts to
`/api/agents/create`, raises on a non-200 status with the response text,
and routes the parsed response through `get_agent_response_to_state`. -/
def restCreateAgent (base_url : String) (name preset persona human : Option String)
    (embedding_config : Option EmbeddingConfig) (llm_config : Option LLMConfig)
    (resp : HTTPResponse WireAgentState) : List Request × Except ClientError AgentState :=
  if embedding_config.isSome || llm_config.isSome then
    ([], .error (.unsupportedOverride
      "Cannot override embedding_config or llm_config when creating agent via REST API"))
  else
    let reqs := [Request.post (base_url ++ "/api/agents/create")]
    if resp.status ≠ 200 then (reqs, .error (.remoteFailure resp.text))
    else
      match resp.parse with
      | none => (reqs, .error (.validationError resp.text))
      | some w => (reqs, .ok (get_agent_response_to_state w))

/-! ## REST strategy: sources -/

/-- Wire `SourceModel`: identifiers and the creation timestamp arrive as
strings (`list_sources` applies `uuid.UUID` and `datetime.strptime` to
them), the embedding configuration as a dictionary. -/
structure SourceModel where
  id : String
  name : String
  user_id : String
  created_at : String
  embedding_config : WireEmbeddingConfig
deriving DecidableEq, Repr

/-- A wire `SourceModel` after the in-place normalization of
`list_sources`: `user_id` replaced by a parsed `uuid.UUID`, `created_at`
by a parsed `datetime`, `embedding_config` by a typed `EmbeddingConfig`. -/
structure SourceModelNormalized where
  id : String
  name : String
  user_id : UUID
  created_at : DateTime
  embedding_config : EmbeddingConfig
deriving DecidableEq, Repr

/-- The per-source body of the `list_sources` loop: parse `user_id` with
`uuid.UUID`, parse `created_at` with
`strptime(_, "%Y-%m-%dT%H:%M:%S.%f")`, rebuild the embedding config
field-by-field; each parse failure raises. -/
def normalizeSource (s : SourceModel) : Except ClientError SourceModelNormalized :=
  match uuidParse s.user_id with
  | none => .error (.malformedUUID s.user_id)
  | some uid =>
    match strptimeSourceFormat s.created_at with
    | none => .error (.malformedTimestamp s.created_at)
    | some dt =>
      .ok { id := s.id
            name := s.name
            user_id := uid
            created_at := dt
            embedding_config :=
              { embedding_endpoint_type := s.embedding_config.embedding_endpoint_type
                embedding_endpoint := s.embedding_config.embedding_endpoint
                embedding_model := s.embedding_config.embedding_model
                embedding_dim := s.embedding_config.embedding_dim
                embedding_chunk_size := s.embedding_config.embedding_chunk_size } }

/-- `RESTClient.list_sources`: parses the body into a
`ListSourcesResponse` (status code never inspected) and normalizes each
source in order, the first failing source raising. -/
def restListSources (resp : HTTPResponse (List SourceModel)) :
    Except ClientError (List SourceModelNormalized) :=
  match resp.parse with
  | none => .error (.validationError resp.text)
  | some sources => sources.mapM normalizeSource

/-- A Python value that is either a `uuid.UUID` or a plain string — the
dynamic type of `source_id` in `delete_source`, which starts as
`uuid.UUID(int=0)` and is reassigned to the (string) `id` of a matching
wire source. -/
inductive PyId
  | uuidVal (u : UUID)
  | strVal (s : String)
deriving DecidableEq, Repr

/-- `str(_)` of a `PyId`. -/
def pyStrId : PyId → String
  | .uuidVal u => uuidToString u
  | .strVal s => s

/-- The source-lookup loop of `delete_source`: the id of the first source
whose name matches, else the nil UUID it was initialized with. -/
def findSourceId (sources : List SourceModel) (source_name : String) : PyId :=
  match sources.find? (fun s => s.name == source_name) with
  | some s => .strVal s.id
  | none => .uuidVal UUID.nil

/-- `RESTClient.delete_source`: lists the sources, scans for the name,
then issues the DELETE against whatever id the scan produced (nil UUID
when nothing matched) and asserts a 200 on the delete response. -/
def restDeleteSource (base_url : String) (listResp : HTTPResponse (List SourceModel))
    (source_name : String) (deleteResp : HTTPResponse Unit) :
    List Request × Except ClientError Unit :=
  match listResp.parse with
  | none => ([Request.get (base_url ++ "/api/sources")],
             .error (.validationError listResp.text))
  | some sources =>
    let sid := findSourceId sources source_name
    let reqs := [Request.get (base_url ++ "/api/sources"),
                 Request.delete (base_url ++ "/api/sources/" ++ pyStrId sid)]
    if deleteResp.status = 200 then (reqs, .ok ())
    else (reqs, .error (.remoteFailure deleteResp.text))

/-- A Python timestamp-typed value as it actually flows through the
dynamically-typed `Source` constructor: either a parsed `datetime` or a
raw, never-parsed wire value. -/
inductive PyTimestamp
  | dt (d : DateTime)
  | raw (s : String)
deriving DecidableEq, Repr

/-- Domain `Source` (`memgpt.data_types`) as `create_source` constructs
it. -/
structure Source where
  id : UUID
  name : String
  user_id : UUID
  created_at : PyTimestamp
  embedding_dim : Option Nat
  embedding_model : Option String
deriving DecidableEq, Repr

/-- `RESTClient.create_source`: parses the body into a wire `SourceModel`
(status code never inspected), parses the two identifier strings with
`uuid.UUID`, and builds the domain `Source` — assigning the wire
`created_at` value as it is, without any timestamp parse. -/
def restCreateSource (resp : HTTPResponse SourceModel) : Except ClientError Source :=
  match resp.parse with
  | none => .error (.validationError resp.text)
  | some m =>
    match uuidParse m.id with
    | none => .error (.malformedUUID m.id)
    | some sid =>
      match uuidParse m.user_id with
      | none => .error (.malformedUUID m.user_id)
      | some uid =>
        .ok { id := sid
              name := m.name
              user_id := uid
              created_at := PyTimestamp.raw m.created_at
              embedding_dim := m.embedding_config.embedding_dim
              embedding_model := m.embedding_config.embedding_model }

/-! ## REST strategy: jobs and the blocking poller -/

/-- The `JobStatus` enumeration of the wire `JobModel`. -/
inductive JobStatus
  | created
  | pending
  | running
  | completed
  | failed
deriving DecidableEq, Repr

/-- Wire `JobModel`: identity, status, and free-form metadata (a
string-keyed dictionary, populated with diagnostic detail on failure). -/
structure Job where
  id : UUID
  status : JobStatus
  metadata : List (String × String)
deriving DecidableEq, Repr

/-- `RESTClient.get_job_status`: parses the body into a `JobModel`,
status code never inspected. -/
def restGetJobStatus (resp : HTTPResponse Job) : Except ClientError Job :=
  match resp.parse with
  | none => .error (.validationError resp.text)
  | some j => .ok j

/-- The `while True` loop of `load_file_into_source` in blocking mode.
`poll k` is the HTTP response to the `k`-th `get_job_status` query,
`slept` the list of sleep durations performed so far (each `time.sleep(1)`
contributes a `1`), and `fuel` bounds how many polls the embedding
unrolls: `none` means the loop had not reached a terminal state within
`fuel` polls (the source loop itself has no bound).  A completed job is
returned together with the sleeps performed; a failed job raises
`ValueError("Job failed: {job.metadata}")`. -/
def pollUntilTerminal (poll : Nat → HTTPResponse Job) :
    Nat → Nat → List Nat → Option (Except ClientError (Job × List Nat))
  | 0, _, _ => none
  | fuel + 1, k, slept =>
    match restGetJobStatus (poll k) with
    | .error e => some (.error e)
    | .ok job =>
      if job.status = JobStatus.completed then some (.ok (job, slept))
      else if job.status = JobStatus.failed then
        some (.error (.ingestionFailed job.metadata))
      else pollUntilTerminal poll fuel (k + 1) (slept ++ [1])

/-- `RESTClient.load_file_into_source`: the upload response must be 200
(else `ValueError` with the response text) and parse into a `JobModel`;
in blocking mode the poll loop runs, in non-blocking mode the
just-submitted job is returned with no sleeps. -/
def loadFileIntoSource (uploadResp : HTTPResponse Job)
    (poll : Nat → HTTPResponse Job) (blocking : Bool) (fuel : Nat) :
    Option (Except ClientError (Job × List Nat)) :=
  if uploadResp.status ≠ 200 then some (.error (.remoteFailure uploadResp.text))
  else
    match uploadResp.parse with
    | none => some (.error (.validationError uploadResp.text))
    | some job =>
      if blocking then pollUntilTerminal poll fuel 0 []
      else some (.ok (job, []))

/-- A backend whose `k`-th status query returns `jobs k` in a 200 response
with a well-formed body. -/
def okJobResp (jobs : Nat → Job) : Nat → HTTPResponse Job :=
  fun k => ⟨200, "", some (jobs k)⟩

/-! ## Local strategy -/

/-- Python truthiness of an `Optional[str]`: `None` and the empty string
are falsy. -/
def truthy : Option String → Bool
  | none => false
  | some s => !s.isEmpty

/-- `LocalClient.agent_exists`: exactly one of `agent_id`/`agent_name`
must be truthy (first neither, then both, is rejected with `ValueError`),
after which membership is checked in the id column or the name column of
the current listing (`existing` is the `list_agents` result; its `agents`
entries are dictionaries with `id` and `name` keys). -/
def localAgentExists (existing : ListAgentsResponse)
    (agent_id agent_name : Option String) : Except ClientError Bool :=
  if !(truthy agent_id || truthy agent_name) then
    .error (.invalidArguments "Either agent_id or agent_name must be provided")
  else if truthy agent_id && truthy agent_name then
    .error (.invalidArguments "Only one of agent_id or agent_name can be provided")
  else if truthy agent_id then
    .ok (existing.agents.any (fun a => agent_id == some a.id))
  else
    .ok (existing.agents.any (fun a => agent_name == some a.name))

/-- Domain `User` (`memgpt.data_types`): identifier, optional
default-agent reference, policy-acceptance flag. -/
structure User where
  id : UUID
  default_agent : Option String
  policies_accepted : Bool
deriving DecidableEq, Repr

/-- Modelled from the spec: the metadata store is an out-of-scope
collaborator (`memgpt.metadata.MetadataStore` is not part of this module);
it is "a metadata store object ... exposing ... store-level user upsert"
primitives.  The store is its list of `User` records. -/
def msGetUser (ms : List User) (uid : UUID) : Option User :=
  ms.find? (fun u => u.id == uid)

/-- Modelled from the spec: `MetadataStore.create_user` creates a record;
per the spec's "upsert, not a create-or-fail" contrast, creation of an
already-present id is the failing branch the client-side upsert avoids. -/
def msCreateUser (ms : List User) (u : User) : Except ClientError (List User) :=
  if (ms.find? (fun v => v.id == u.id)).isSome then
    .error (.invalidArguments "user already exists")
  else .ok (ms ++ [u])

/-- Modelled from the spec: `MetadataStore.update_user` refreshes the
record with the matching id, and fails when there is none. -/
def msUpdateUser (ms : List User) (u : User) : Except ClientError (List User) :=
  if (ms.find? (fun v => v.id == u.id)).isSome then
    .ok (ms.map (fun v => if v.id == u.id then u else v))
  else .error (.invalidArguments "user not found")

/-- The user-record step of `LocalClient.__init__`: build
`User(id=self.user_id)` and upsert it — `ms.get_user` found a record ⇒
`ms.update_user`, else `ms.create_user`.  Returns the resulting store. -/
def localClientInitUser (ms : List User) (uid : UUID) : Except ClientError (List User) :=
  let user : User := { id := uid, default_agent := none, policies_accepted := false }
  match msGetUser ms uid with
  | some _ => msUpdateUser ms user
  | none => msCreateUser ms user

/-- Number of store records carrying a given user id. -/
def countUser (ms : List User) (uid : UUID) : Nat :=
  (ms.filter (fun u => u.id == uid)).length

/-- A message dictionary emitted by the server through the queuing
interface. -/
abbrev Message := List (String × String)

/-- Wire `UserMessageResponse`. -/
structure UserMessageResponseModel where
  messages : List Message
deriving DecidableEq, Repr

/-- `QueuingInterface.clear` (modelled from the spec: the queuing
interface is constructed at §4.4 step 4 to "capture the server's emitted
responses during a call"; its buffer is emptied by `clear`). -/
def interfaceClear (_ : List Message) : List Message := []

/-- `LocalClient.user_message`: clear the queuing interface, invoke
`server.user_message` (which emits `serverEmits` through the interface),
then either auto-save (`server.save_agents`, returning Python `None`) or
return a `UserMessageResponse` over `interface.to_list()`.  The result is
the final interface buffer, whether `save_agents` ran, and the value
returned to the caller. -/
def localUserMessage (buffer : List Message) (serverEmits : List Message)
    (auto_save : Bool) : List Message × Bool × Option UserMessageResponseModel :=
  let b1 := interfaceClear buffer
  let b2 := b1 ++ serverEmits
  if auto_save then (b2, true, none)
  else (b2, false, some ⟨b2⟩)

/-- Wire `GetAgentMessagesResponse`. -/
structure GetAgentMessagesResponse where
  messages : List Message
deriving DecidableEq, Repr

/-- `AbstractClient.get_messages`: the abstract façade operation raises
`NotImplementedError` unconditionally. -/
def abstractGetMessages (agent_id : UUID) (before after : Option UUID)
    (limit : Option Nat) : Except ClientError GetAgentMessagesResponse :=
  .error .notImplemented

/-- `LocalClient` does not override `get_messages` (the source marks the
recall-memory section "(No corresponding function in LocalClient)"), so
Python method resolution dispatches the call to
`AbstractClient.get_messages`. -/
def localGetMessages (agent_id : UUID) (before after : Option UUID)
    (limit : Option Nat) : Except ClientError GetAgentMessagesResponse :=
  abstractGetMessages agent_id before after limit

/-! ## Concrete fixtures used by counterexamples and witnesses -/

/-- A wire source response whose `created_at` is not parsable by the fixed
timestamp format. -/
def c1WireSource : SourceModel :=
  { id := "00000000-0000-0000-0000-00000000000a"
    name := "docs"
    user_id := "00000000-0000-0000-0000-000000000001"
    created_at := "garbage"
    embedding_config :=
      { embedding_endpoint_type := some "openai"
        embedding_endpoint := none
        embedding_model := some "text-embedding-ada-002"
        embedding_dim := some 1536
        embedding_chunk_size := some 300 } }

/-- The domain `Source` that `restCreateSource` builds from
`c1WireSource`. -/
def c1SourceResult : Source :=
  { id := ⟨10⟩
    name := "docs"
    user_id := ⟨1⟩
    created_at := PyTimestamp.raw "garbage"
    embedding_dim := some 1536
    embedding_model := some "text-embedding-ada-002" }

/-- A well-formed wire source response (its `created_at` is parsable). -/
def c2WireSource : SourceModel :=
  { id := "00000000-0000-0000-0000-00000000000b"
    name := "papers"
    user_id := "00000000-0000-0000-0000-000000000002"
    created_at := "2024-01-02T03:04:05.000006"
    embedding_config :=
      { embedding_endpoint_type := some "openai"
        embedding_endpoint := none
        embedding_model := some "text-embedding-ada-002"
        embedding_dim := some 1536
        embedding_chunk_size := some 300 } }

/-- A concrete wire agent state. -/
def sampleWireAgent : WireAgentState :=
  { id := ⟨1⟩
    name := "agent_1"
    user_id := ⟨2⟩
    preset := "memgpt_chat"
    persona := "sam_pov"
    human := "basic"
    llm_config :=
      { model := some "gpt-4"
        model_endpoint_type := some "openai"
        model_endpoint := some "https://api.openai.com/v1"
        model_wrapper := none
        context_window := some 8192 }
    embedding_config :=
      { embedding_endpoint_type := some "openai"
        embedding_endpoint := none
        embedding_model := some "text-embedding-ada-002"
        embedding_dim := some 1536
        embedding_chunk_size := some 300 }
    state := none
    created_at := 1700000000 }

/-! ## C1: timestamp normalization at the adapter boundary -/

/-- C1, counterexample.  The claim says every wire timestamp is parsed
into the canonical timestamp type before the domain object is returned,
and that an unparsable value signals Malformed-Timestamp rather than a raw
string being propagated.  `create_source` refutes both parts: on a 200
response whose `created_at` is the unparsable string `"garbage"`, the call
returns a fully-built domain `Source` whose `created_at` is the raw wire
string — no parse is attempted and no Malformed-Timestamp is raised. -/
theorem c1_counterexample :
    strptimeSourceFormat "garbage" = none ∧
    restCreateSource ⟨200, "", some c1WireSource⟩ = .ok c1SourceResult :=
  ⟨rfl, rfl⟩

/-- C1, amended: the agent-state adapter parses epoch seconds with
`fromtimestamp` into the canonical timestamp type, and `list_sources`
parses each source's `created_at` with the fixed
`YYYY-MM-DDTHH:MM:SS.ffffff` pattern, signalling Malformed-Timestamp on an
unparsable value; but `create_source` propagates the wire `created_at`
into the domain `Source` unparsed, as a raw string. -/
theorem c1_timestamp_adapter (w : WireAgentState) (s : SourceModel)
    (resp : HTTPResponse SourceModel) (m : SourceModel) (src : Source)
    (hparse : resp.parse = some m) (hok : restCreateSource resp = .ok src) :
    (get_agent_response_to_state w).created_at = fromtimestampUTC w.created_at ∧
    (strptimeSourceFormat s.created_at = none → uuidParse s.user_id ≠ none →
      normalizeSource s = .error (.malformedTimestamp s.created_at)) ∧
    (∀ out, normalizeSource s = .ok out →
      strptimeSourceFormat s.created_at = some out.created_at) ∧
    src.created_at = PyTimestamp.raw m.created_at := by
  refine ⟨rfl, ?_, ?_, ?_⟩
  · intro hn hu
    cases hup : uuidParse s.user_id with
    | none => exact absurd hup hu
    | some uid => simp [normalizeSource, hup, hn]
  · intro out hout
    unfold normalizeSource at hout
    cases hup : uuidParse s.user_id with
    | none => rw [hup] at hout; simp at hout
    | some uid =>
      rw [hup] at hout
      cases hst : strptimeSourceFormat s.created_at with
      | none => rw [hst] at hout; simp at hout
      | some dt =>
        rw [hst] at hout
        simp only [Except.ok.injEq] at hout
        rw [← hout]
  · simp only [restCreateSource, hparse] at hok
    cases h1 : uuidParse m.id with
    | none => rw [h1] at hok; simp at hok
    | some sid =>
      rw [h1] at hok
      cases h2 : uuidParse m.user_id with
      | none => rw [h2] at hok; simp at hok
      | some uid =>
        rw [h2] at hok
        simp only [Except.ok.injEq] at hok
        rw [← hok]

/-- C1, witness for the amended theorem: instantiated at the concrete
fixtures, with the Malformed-Timestamp branch exercised on the unparsable
`created_at` of `c1WireSource`. -/
theorem c1_witness :
    (get_agent_response_to_state sampleWireAgent).created_at =
        fromtimestampUTC sampleWireAgent.created_at ∧
    (strptimeSourceFormat c1WireSource.created_at = none →
      uuidParse c1WireSource.user_id ≠ none →
      normalizeSource c1WireSource =
        .error (.malformedTimestamp c1WireSource.created_at)) ∧
    (∀ out, normalizeSource c1WireSource = .ok out →
      strptimeSourceFormat c1WireSource.created_at = some out.created_at) ∧
    c1SourceResult.created_at = PyTimestamp.raw c1WireSource.created_at :=
  c1_timestamp_adapter sampleWireAgent c1WireSource ⟨200, "", some c1WireSource⟩
    c1WireSource c1SourceResult rfl rfl

/-! ## C2: status-code handling across remote operations -/

/-- C2, counterexample.  The claim says every remote operation returning a
domain object signals Remote-Failure on any non-OK status and never hands
the caller a partially- (or fully-) parsed object.  `create_source`
refutes it: on a status-500 response whose body happens to parse, the call
returns a normal domain `Source` and no failure is signalled. -/
theorem c2_counterexample :
    (500 : Nat) ≠ 200 ∧
    restCreateSource ⟨500, "Internal Server Error", some c2WireSource⟩ =
      .ok { id := ⟨11⟩
            name := "papers"
            user_id := ⟨2⟩
            created_at := PyTimestamp.raw "2024-01-02T03:04:05.000006"
            embedding_dim := some 1536
            embedding_model := some "text-embedding-ada-002" } :=
  ⟨by decide, rfl⟩

/-- C2, amended: operations that check the status code (`create_agent` is
proved here as representative) raise a failure carrying the raw response
text on any non-200 status; but `list_agents`, `create_source` and
`get_job_status` never inspect the status code at all — their result is
the same for every status and depends only on whether the body parses. -/
theorem c2_status_handling :
    (∀ (st st' : Nat) (t : String) (p : Option ListAgentsResponse),
        restListAgents ⟨st, t, p⟩ = restListAgents ⟨st', t, p⟩) ∧
    (∀ (st st' : Nat) (t : String) (p : Option SourceModel),
        restCreateSource ⟨st, t, p⟩ = restCreateSource ⟨st', t, p⟩) ∧
    (∀ (st st' : Nat) (t : String) (p : Option Job),
        restGetJobStatus ⟨st, t, p⟩ = restGetJobStatus ⟨st', t, p⟩) ∧
    (∀ (base_url : String) (name preset persona human : Option String)
        (resp : HTTPResponse WireAgentState), resp.status ≠ 200 →
        restCreateAgent base_url name preset persona human none none resp =
          ([Request.post (base_url ++ "/api/agents/create")],
           .error (.remoteFailure resp.text))) := by
  refine ⟨fun _ _ _ _ => rfl, fun _ _ _ _ => rfl, fun _ _ _ _ => rfl, ?_⟩
  intro base_url name preset persona human resp h
  simp [restCreateAgent, h]

/-- C2, witness: `create_agent` against a 500 response raises a failure
carrying the raw body. -/
theorem c2_witness :
    restCreateAgent "http://localhost:8283" none none none none none none
        ⟨500, "upstream error", none⟩ =
      ([Request.post "http://localhost:8283/api/agents/create"],
       .error (.remoteFailure "upstream error")) :=
  c2_status_handling.2.2.2 "http://localhost:8283" none none none none
    ⟨500, "upstream error", none⟩ (by decide)

/-! ## C4: agent_exists argument validation -/

/-- C4, counterexample.  The claim says both strategies signal
Invalid-Arguments when neither `agent_id` nor `agent_name` is supplied.
The REST strategy refutes it: with neither supplied it performs no
validation at all — it issues the GET against the URL built from
`str(None)` and answers `false` from the 404, signalling nothing. -/
theorem c4_counterexample :
    restAgentExists "http://localhost:8283" none none ⟨404, "Not Found", some ()⟩ =
      ([Request.get "http://localhost:8283/api/agents/None/config"], .ok false) :=
  rfl

/-- C4, amended: only the local strategy enforces exactly-one-of
{agent_id, agent_name} (under Python truthiness, where `None` and the
empty string both count as unsupplied): neither supplied and both supplied
each signal Invalid-Arguments, and exactly one supplied answers a
membership check.  The REST strategy never signals Invalid-Arguments for
any argument combination — it ignores `agent_name` and answers from the
status code of the id-based request. -/
theorem c4_agent_exists_validation :
    (∀ (existing : ListAgentsResponse) (aid an : Option String),
        truthy aid = false → truthy an = false →
        localAgentExists existing aid an =
          .error (.invalidArguments "Either agent_id or agent_name must be provided")) ∧
    (∀ (existing : ListAgentsResponse) (aid an : Option String),
        truthy aid = true → truthy an = true →
        localAgentExists existing aid an =
          .error (.invalidArguments "Only one of agent_id or agent_name can be provided")) ∧
    (∀ (existing : ListAgentsResponse) (aid an : Option String),
        truthy aid = true → truthy an = false →
        localAgentExists existing aid an =
          .ok (existing.agents.any (fun a => aid == some a.id))) ∧
    (∀ (existing : ListAgentsResponse) (aid an : Option String),
        truthy aid = false → truthy an = true →
        localAgentExists existing aid an =
          .ok (existing.agents.any (fun a => an == some a.name))) ∧
    (∀ (base_url : String) (aid an : Option String) (resp : HTTPResponse Unit)
        (msg : String),
        (restAgentExists base_url aid an resp).2 ≠
          .error (.invalidArguments msg)) := by
  refine ⟨?_, ?_, ?_, ?_, ?_⟩
  · intro existing aid an h1 h2
    simp [localAgentExists, h1, h2]
  · intro existing aid an h1 h2
    simp [localAgentExists, h1, h2]
  · intro existing aid an h1 h2
    simp [localAgentExists, h1, h2]
  · intro existing aid an h1 h2
    simp [localAgentExists, h1, h2]
  · intro base_url aid an resp msg
    unfold restAgentExists
    by_cases h4 : resp.status = 404
    · simp [h4]
    · by_cases h2 : resp.status = 200 <;> simp [h4, h2]

/-- C4, witness: the local strategy with both arguments supplied signals
Invalid-Arguments. -/
theorem c4_witness :
    localAgentExists ⟨0, []⟩ (some "agent-id-1") (some "agent_1") =
      .error (.invalidArguments "Only one of agent_id or agent_name can be provided") :=
  c4_agent_exists_validation.2.1 ⟨0, []⟩ (some "agent-id-1") (some "agent_1") rfl rfl

/-! ## C5: unsupported config override on remote create_agent -/

/-- C5: `create_agent` on the remote strategy with a non-null
`embedding_config` or a non-null `llm_config` signals
Unsupported-Override, and the empty request list shows the signal is
raised before any network request is issued. -/
theorem c5_unsupported_override (base_url : String)
    (name preset persona human : Option String)
    (embedding_config : Option EmbeddingConfig) (llm_config : Option LLMConfig)
    (resp : HTTPResponse WireAgentState)
    (h : embedding_config.isSome = true ∨ llm_config.isSome = true) :
    restCreateAgent base_url name preset persona human embedding_config llm_config resp =
      ([], .error (.unsupportedOverride
        "Cannot override embedding_config or llm_config when creating agent via REST API")) := by
  unfold restCreateAgent
  rcases h with h | h <;> simp [h]

/-- C5, witness: a concrete non-null `embedding_config` is rejected with
no request issued. -/
theorem c5_witness :
    restCreateAgent "http://localhost:8283" none none none none
        (some { embedding_endpoint_type := some "openai", embedding_endpoint := none,
                embedding_model := some "text-embedding-ada-002",
                embedding_dim := some 1536, embedding_chunk_size := some 300 })
        none ⟨200, "", none⟩ =
      ([], .error (.unsupportedOverride
        "Cannot override embedding_config or llm_config when creating agent via REST API")) :=
  c5_unsupported_override "http://localhost:8283" none none none none _ none
    ⟨200, "", none⟩ (Or.inl rfl)

/-! ## C8: recall-memory reads on the local strategy -/

/-- C8: `get_messages` on the local strategy dispatches to the abstract
contract and signals Not-Implemented for every argument combination,
rather than degrading or returning a partial result. -/
theorem c8_local_get_messages_not_implemented (agent_id : UUID)
    (before after : Option UUID) (limit : Option Nat) :
    localGetMessages agent_id before after limit = .error ClientError.notImplemented :=
  rfl

/-! ## C9: local user_message and the auto-save switch -/

/-- C9: `LocalClient.user_message` with auto-save disabled returns a
`UserMessageResponse` holding exactly the messages the server emitted
through the (freshly cleared) queuing interface; with auto-save enabled it
saves the agents and returns `None`, so the captured messages are never
handed to the caller.  The prior buffer contents never leak into the
result. -/
theorem c9_user_message (buffer serverEmits : List Message) :
    localUserMessage buffer serverEmits false =
      (serverEmits, false, some ⟨serverEmits⟩) ∧
    localUserMessage buffer serverEmits true = (serverEmits, true, none) :=
  ⟨rfl, rfl⟩

/-! ## C3 and C6: the blocking poll loop -/

/-- Whenever the poll loop returns a job normally, that job is in the
Completed state: the loop can only exit the `while True` via the
`completed` break. -/
lemma pollUntilTerminal_ok_completed (poll : Nat → HTTPResponse Job) :
    ∀ (fuel k : Nat) (slept : List Nat) (job : Job) (s : List Nat),
      pollUntilTerminal poll fuel k slept = some (.ok (job, s)) →
      job.status = JobStatus.completed := by
  intro fuel
  induction fuel with
  | zero =>
    intro k slept job s h
    simp [pollUntilTerminal] at h
  | succ n ih =>
    intro k slept job s h
    rw [pollUntilTerminal] at h
    split at h
    · simp at h
    · split at h
      · rename_i hc
        simp only [Option.some.injEq, Except.ok.injEq, Prod.mk.injEq] at h
        rw [← h.1]
        exact hc
      · split at h
        · simp at h
        · exact ih (k + 1) (slept ++ [1]) job s h

/-- When the `j`-th status query is the first to report a terminal state
and it reports Failed, the loop raises Ingestion-Failed carrying that
job's metadata (for any fuel beyond `j`, any starting index offset `k`,
and any sleeps already performed). -/
lemma pollUntilTerminal_first_failed (jobs : Nat → Job) :
    ∀ (j fuel k : Nat) (slept : List Nat),
      (∀ i, i < j → (jobs (k + i)).status ≠ JobStatus.completed ∧
                    (jobs (k + i)).status ≠ JobStatus.failed) →
      (jobs (k + j)).status = JobStatus.failed →
      j < fuel →
      pollUntilTerminal (okJobResp jobs) fuel k slept =
        some (.error (.ingestionFailed (jobs (k + j)).metadata)) := by
  intro j
  induction j with
  | zero =>
    intro fuel k slept _ hfail hlt
    obtain ⟨n, rfl⟩ : ∃ n, fuel = n + 1 := ⟨fuel - 1, by omega⟩
    rw [Nat.add_zero] at hfail
    simp [pollUntilTerminal, okJobResp, restGetJobStatus, hfail]
  | succ m ih =>
    intro fuel k slept hpre hfail hlt
    obtain ⟨n, rfl⟩ : ∃ n, fuel = n + 1 := ⟨fuel - 1, by omega⟩
    have h0 := hpre 0 (Nat.succ_pos m)
    rw [Nat.add_zero] at h0
    have hstep : pollUntilTerminal (okJobResp jobs) (n + 1) k slept =
        pollUntilTerminal (okJobResp jobs) n (k + 1) (slept ++ [1]) := by
      rw [pollUntilTerminal]
      simp [okJobResp, restGetJobStatus, h0.1, h0.2]
    have hidx : k + 1 + m = k + (m + 1) := by omega
    have hrec := ih n (k + 1) (slept ++ [1])
      (fun i hi => by rw [show k + 1 + i = k + (i + 1) by omega]; exact hpre (i + 1) (by omega))
      (by rw [hidx]; exact hfail) (by omega)
    rw [hidx] at hrec
    rw [hstep, hrec]

/-- C3: a blocking `load_file_into_source` whose polled status sequence
first reaches a terminal state at a Failed report raises Ingestion-Failed
carrying exactly that job's metadata; and no blocking invocation ever
returns a job that is not Completed — in particular a failed job is never
returned to the caller. -/
theorem c3_blocking_failure (uploadResp : HTTPResponse Job) (jobs : Nat → Job)
    (j fuel : Nat)
    (hstatus : uploadResp.status = 200) (hbody : uploadResp.parse.isSome = true)
    (hpre : ∀ i, i < j → (jobs i).status ≠ JobStatus.completed ∧
                         (jobs i).status ≠ JobStatus.failed)
    (hfail : (jobs j).status = JobStatus.failed)
    (hfuel : j < fuel) :
    loadFileIntoSource uploadResp (okJobResp jobs) true fuel =
      some (.error (.ingestionFailed (jobs j).metadata)) ∧
    (∀ (upload2 : HTTPResponse Job) (poll2 : Nat → HTTPResponse Job)
        (fuel2 : Nat) (job : Job) (sleeps : List Nat),
        loadFileIntoSource upload2 poll2 true fuel2 = some (.ok (job, sleeps)) →
        job.status = JobStatus.completed) := by
  constructor
  · obtain ⟨jb, hjb⟩ := Option.isSome_iff_exists.mp hbody
    have hpre' : ∀ i, i < j → (jobs (0 + i)).status ≠ JobStatus.completed ∧
        (jobs (0 + i)).status ≠ JobStatus.failed := by
      intro i hi; rw [Nat.zero_add]; exact hpre i hi
    have hfail' : (jobs (0 + j)).status = JobStatus.failed := by
      rw [Nat.zero_add]; exact hfail
    have hmain := pollUntilTerminal_first_failed jobs j fuel 0 [] hpre' hfail' hfuel
    rw [Nat.zero_add] at hmain
    have hne : ¬uploadResp.status ≠ 200 := by simp [hstatus]
    unfold loadFileIntoSource
    rw [if_neg hne, hjb]
    simpa using hmain
  · intro upload2 poll2 fuel2 job sleeps h
    unfold loadFileIntoSource at h
    by_cases h2 : upload2.status ≠ 200
    · rw [if_pos h2] at h; simp at h
    · rw [if_neg h2] at h
      cases hp : upload2.parse with
      | none => rw [hp] at h; simp at h
      | some jb =>
        rw [hp] at h
        simp only [if_true] at h
        exact pollUntilTerminal_ok_completed poll2 fuel2 0 [] job sleeps h

/-- A job in the Failed state with the diagnostic metadata of the spec's
failure scenario. -/
def c3FailedJob : Job :=
  { id := ⟨7⟩, status := .failed, metadata := [("reason", "bad encoding")] }

/-- C3, witness: against a backend that reports Failed with metadata
`{"reason": "bad encoding"}`, the blocking call raises Ingestion-Failed
with exactly that payload. -/
theorem c3_witness :
    loadFileIntoSource ⟨200, "", some { id := ⟨7⟩, status := .running, metadata := [] }⟩
        (okJobResp (fun _ => c3FailedJob)) true 1 =
      some (.error (.ingestionFailed [("reason", "bad encoding")])) :=
  (c3_blocking_failure ⟨200, "", some { id := ⟨7⟩, status := .running, metadata := [] }⟩
    (fun _ => c3FailedJob) 0 1 rfl rfl
    (fun i hi => absurd hi (Nat.not_lt_zero i)) rfl (by omega)).1

/-- C6: against a backend whose status queries report Running twice and
then Completed, the blocking call returns the Completed job after exactly
two polling sleeps, each of the fixed one-time-unit interval. -/
theorem c6_two_sleeps (uploadResp : HTTPResponse Job) (jobs : Nat → Job) (fuel : Nat)
    (hstatus : uploadResp.status = 200) (hbody : uploadResp.parse.isSome = true)
    (h0 : (jobs 0).status = JobStatus.running)
    (h1 : (jobs 1).status = JobStatus.running)
    (h2 : (jobs 2).status = JobStatus.completed)
    (hfuel : 3 ≤ fuel) :
    loadFileIntoSource uploadResp (okJobResp jobs) true fuel =
      some (.ok (jobs 2, [1, 1])) := by
  obtain ⟨n, rfl⟩ : ∃ n, fuel = n + 3 := ⟨fuel - 3, by omega⟩
  obtain ⟨jb, hjb⟩ := Option.isSome_iff_exists.mp hbody
  have hne : ¬uploadResp.status ≠ 200 := by simp [hstatus]
  unfold loadFileIntoSource
  rw [if_neg hne, hjb]
  simp only [if_true]
  show pollUntilTerminal (okJobResp jobs) (n + 1 + 1 + 1) 0 [] = _
  rw [pollUntilTerminal]
  simp only [okJobResp, restGetJobStatus, h0]
  rw [pollUntilTerminal]
  simp only [okJobResp, restGetJobStatus, h1]
  rw [pollUntilTerminal]
  simp only [okJobResp, restGetJobStatus, h2]
  simp

/-- The fake backend of the C6 scenario: Running for the first two
queries, Completed from the third on. -/
def c6Jobs : Nat → Job := fun k =>
  if k < 2 then { id := ⟨9⟩, status := .running, metadata := [] }
  else { id := ⟨9⟩, status := .completed, metadata := [] }

/-- C6, witness: the scenario run at fuel 3 returns the Completed job
with two unit sleeps. -/
theorem c6_witness :
    loadFileIntoSource ⟨200, "", some (c6Jobs 0)⟩ (okJobResp c6Jobs) true 3 =
      some (.ok ({ id := ⟨9⟩, status := .completed, metadata := [] }, [1, 1])) :=
  c6_two_sleeps ⟨200, "", some (c6Jobs 0)⟩ c6Jobs 3 rfl rfl rfl rfl rfl (by omega)

/-! ## C7: idempotent local-strategy construction -/

/-- Appending one record adds one to the count exactly when its id
matches. -/
lemma countUser_append (ms : List User) (u : User) (uid : UUID) :
    countUser (ms ++ [u]) uid = countUser ms uid + (if u.id = uid then 1 else 0) := by
  by_cases h : u.id = uid <;>
    simp [countUser, List.filter_append, List.filter_cons, h]

/-- Replacing every record whose id matches `u.id` by `u` itself leaves
the count of matching records unchanged. -/
lemma countUser_map_replace (ms : List User) (uid : UUID) (u : User)
    (hid : u.id = uid) :
    countUser (ms.map fun v => if v.id == u.id then u else v) uid =
      countUser ms uid := by
  induction ms with
  | nil => rfl
  | cons v vs ih =>
    by_cases hv : v.id = u.id <;> by_cases hvu : v.id = uid <;>
      simp_all [countUser, List.filter_cons]

/-- `find?` skips a prefix in which nothing satisfies the predicate. -/
lemma find?_append_none {α : Type} (p : α → Bool) (l1 l2 : List α)
    (h : l1.find? p = none) : (l1 ++ l2).find? p = l2.find? p := by
  induction l1 with
  | nil => simp
  | cons a l ih =>
    have hpa : ¬p a = true := by
      intro hpa
      rw [List.find?_cons_of_pos _ hpa] at h
      exact Option.noConfusion h
    rw [List.find?_cons_of_neg _ hpa] at h
    rw [List.cons_append, List.find?_cons_of_neg _ hpa]
    exact ih h

/-- A `find?` miss means the count is zero. -/
lemma countUser_eq_zero_of_find?_none (ms : List User) (uid : UUID)
    (h : ms.find? (fun u => u.id == uid) = none) : countUser ms uid = 0 := by
  have := List.find?_eq_none.mp h
  simp only [countUser, List.length_eq_zero]
  rw [List.filter_eq_nil_iff]
  exact this

/-- A `find?` hit means the count is positive. -/
lemma countUser_pos_of_find?_some (ms : List User) (uid : UUID) (v : User)
    (h : ms.find? (fun u => u.id == uid) = some v) : 0 < countUser ms uid := by
  have hmem : v ∈ ms := List.mem_of_find?_eq_some h
  have hp := List.find?_some h
  have hf : v ∈ ms.filter (fun u => u.id == uid) := List.mem_filter.mpr ⟨hmem, hp⟩
  have := List.length_pos.mpr (List.ne_nil_of_mem hf)
  simpa [countUser] using this

/-- When the lookup misses, the init step creates. -/
lemma localClientInitUser_not_found (ms : List User) (uid : UUID)
    (h : msGetUser ms uid = none) :
    localClientInitUser ms uid =
      msCreateUser ms { id := uid, default_agent := none, policies_accepted := false } := by
  simp only [localClientInitUser, h]

/-- When the lookup hits, the init step updates. -/
lemma localClientInitUser_found (ms : List User) (uid : UUID) (v : User)
    (h : msGetUser ms uid = some v) :
    localClientInitUser ms uid =
      msUpdateUser ms { id := uid, default_agent := none, policies_accepted := false } := by
  simp only [localClientInitUser, h]

/-- Creation on a store without the id appends the record. -/
lemma msCreateUser_not_found (ms : List User) (u : User)
    (h : (ms.find? fun v => v.id == u.id) = none) :
    msCreateUser ms u = .ok (ms ++ [u]) := by
  simp [msCreateUser, h]

/-- Update on a store holding the id replaces the matching records. -/
lemma msUpdateUser_found (ms : List User) (u w : User)
    (h : (ms.find? fun v => v.id == u.id) = some w) :
    msUpdateUser ms u = .ok (ms.map fun v => if v.id == u.id then u else v) := by
  simp [msUpdateUser, h]

/-- Running the init step on a store holding exactly one record for the
id succeeds (via the update branch) and preserves the count of one. -/
lemma localClientInitUser_count_one (ms : List User) (uid : UUID)
    (h1 : countUser ms uid = 1) :
    ∃ ms2, localClientInitUser ms uid = .ok ms2 ∧ countUser ms2 uid = 1 := by
  cases hw : msGetUser ms uid with
  | none =>
    have h0 := countUser_eq_zero_of_find?_none ms uid hw
    omega
  | some w =>
    refine ⟨_, (localClientInitUser_found ms uid w hw).trans
      (msUpdateUser_found ms _ w hw), ?_⟩
    exact (countUser_map_replace ms uid
      { id := uid, default_agent := none, policies_accepted := false } rfl).trans h1

/-- C7: the user-record step of local-strategy construction is an upsert —
run against any store holding at most one record for the id, it succeeds
(update when found, create when not) and leaves exactly one record; run a
second time on the resulting store it succeeds again (no raise) and still
leaves exactly one record (no duplicate). -/
theorem c7_init_upsert (ms : List User) (uid : UUID)
    (hcount : countUser ms uid ≤ 1) :
    ∃ ms1 ms2,
      localClientInitUser ms uid = .ok ms1 ∧
      localClientInitUser ms1 uid = .ok ms2 ∧
      countUser ms1 uid = 1 ∧ countUser ms2 uid = 1 := by
  have hfirst : ∃ ms1, localClientInitUser ms uid = .ok ms1 ∧ countUser ms1 uid = 1 := by
    cases hfind : msGetUser ms uid with
    | none =>
      refine ⟨_, (localClientInitUser_not_found ms uid hfind).trans
        (msCreateUser_not_found ms _ hfind), ?_⟩
      rw [countUser_append, countUser_eq_zero_of_find?_none ms uid hfind]
      simp
    | some v =>
      have hcount0 : countUser ms uid = 1 := by
        have := countUser_pos_of_find?_some ms uid v hfind
        omega
      refine ⟨_, (localClientInitUser_found ms uid v hfind).trans
        (msUpdateUser_found ms _ v hfind), ?_⟩
      exact (countUser_map_replace ms uid
        { id := uid, default_agent := none, policies_accepted := false } rfl).trans hcount0
  obtain ⟨ms1, hstep1, hcount1⟩ := hfirst
  obtain ⟨ms2, hstep2, hcount2⟩ := localClientInitUser_count_one ms1 uid hcount1
  exact ⟨ms1, ms2, hstep1, hstep2, hcount1, hcount2⟩

/-- C7, witness: constructing twice against an initially empty store
succeeds both times and leaves a single record. -/
theorem c7_witness :
    ∃ ms1 ms2,
      localClientInitUser [] ⟨5⟩ = .ok ms1 ∧
      localClientInitUser ms1 ⟨5⟩ = .ok ms2 ∧
      countUser ms1 ⟨5⟩ = 1 ∧ countUser ms2 ⟨5⟩ = 1 :=
  c7_init_upsert [] ⟨5⟩ (by decide)

/-! ## C10: delete_source on a missing name -/

/-- Rendering of the nil UUID. -/
lemma uuidToString_nil :
    uuidToString UUID.nil = "00000000-0000-0000-0000-000000000000" := by decide

/-- C10: `delete_source` with a name that matches no listed source
signals no missing-source error — it issues the DELETE against the
all-zero (nil) UUID it initialized `source_id` with, and returns
normally when that request comes back 200. -/
theorem c10_delete_source_nil (base_url : String) (listing : List SourceModel)
    (source_name t : String) (deleteResp : HTTPResponse Unit)
    (hmiss : ∀ s ∈ listing, s.name ≠ source_name)
    (hok : deleteResp.status = 200) :
    restDeleteSource base_url ⟨200, t, some listing⟩ source_name deleteResp =
      ([Request.get (base_url ++ "/api/sources"),
        Request.delete
          (base_url ++ "/api/sources/" ++ "00000000-0000-0000-0000-000000000000")],
       .ok ()) := by
  have hfind : listing.find? (fun s => s.name == source_name) = none := by
    apply List.find?_eq_none.mpr
    intro x hx
    simpa using hmiss x hx
  simp [restDeleteSource, findSourceId, hfind, hok, pyStrId, uuidToString_nil]

/-- C10, witness: a concrete listing without the requested name yields
the DELETE against the nil UUID and no error. -/
theorem c10_witness :
    restDeleteSource "http://localhost:8283"
        ⟨200, "", some [{ id := "00000000-0000-0000-0000-00000000000c"
                          name := "other"
                          user_id := "00000000-0000-0000-0000-000000000001"
                          created_at := "2024-01-02T03:04:05.000006"
                          embedding_config :=
                            { embedding_endpoint_type := some "openai"
                              embedding_endpoint := none
                              embedding_model := some "text-embedding-ada-002"
                              embedding_dim := some 1536
                              embedding_chunk_size := some 300 } }]⟩
        "missing" ⟨200, "", some ()⟩ =
      ([Request.get "http://localhost:8283/api/sources",
        Request.delete
          ("http://localhost:8283/api/sources/" ++
            "00000000-0000-0000-0000-000000000000")],
       .ok ()) :=
  c10_delete_source_nil "http://localhost:8283" _ "missing" "" ⟨200, "", some ()⟩
    (by decide) rfl

end MemGPTClient
